import Mathlib

/-!
Shallow embedding of the tws_monitoring repository
(src/server/server.py and src/local/monitoring.py) and proofs of the
specification claims about it.

Conventions: Python floats holding Unix timestamps are modelled as `Int`
(the claims only concern comparisons and differences of times); Python
tuples `(is_healthy, status_message)` become the structure `HealthVerdict`;
Python code that can raise is modelled as `Except`-valued functions, with
the `try/except` handlers of the source applied explicitly.
-/

/-- The `(is_healthy, status_message)` pair returned by the health checks. -/
structure HealthVerdict where
  isHealthy : Bool
  message : String
deriving DecidableEq

/-- The mutable loop state of `server.py` `main`:
`previous_is_healthy` (initially `None`) and `last_reminder_time`
(initially `0`). -/
structure MonitorState where
  previousIsHealthy : Option Bool
  lastReminderTime : Int
deriving DecidableEq

/-- `previous_is_healthy = None`, `last_reminder_time = 0` at daemon start. -/
def initState : MonitorState := ⟨none, 0⟩

/-- One pass of the notification decision in `server.py` lines 167-185:
first branch when `previous_is_healthy is None or is_healthy != previous_is_healthy`,
second branch when still unhealthy and `current_time - last_reminder_time >= hourly_reminder`,
otherwise no message; `previous_is_healthy` is always updated to the current
verdict. Returns the message sent (if any) and the state after the cycle. -/
def monitorStep (interval : Int) (s : MonitorState) (now : Int) (v : HealthVerdict) :
    Option String × MonitorState :=
  if s.previousIsHealthy = none ∨ some v.isHealthy ≠ s.previousIsHealthy then
    (some v.message, ⟨some v.isHealthy, now⟩)
  else if v.isHealthy = false ∧ interval ≤ now - s.lastReminderTime then
    (some ("Reminder: " ++ v.message), ⟨some v.isHealthy, now⟩)
  else
    (none, ⟨some v.isHealthy, s.lastReminderTime⟩)

/-- The per-cycle messages produced by running the loop over a list of
`(current_time, verdict)` observations. -/
def outputs (interval : Int) (s : MonitorState) : List (Int × HealthVerdict) → List (Option String)
  | [] => []
  | e :: rest =>
      (monitorStep interval s e.1 e.2).1 :: outputs interval (monitorStep interval s e.1 e.2).2 rest

/-- The loop state after processing a list of `(current_time, verdict)`
observations. -/
def stateAfter (interval : Int) (s : MonitorState) : List (Int × HealthVerdict) → MonitorState
  | [] => s
  | e :: rest => stateAfter interval (monitorStep interval s e.1 e.2).2 rest

/-- Placeholder observation used only as the default of `List.getD`. -/
def defaultEntry : Int × HealthVerdict := (0, ⟨true, ""⟩)

/-- Message at index `i` of a run from the initial state. -/
def outAt (interval : Int) (t : List (Int × HealthVerdict)) (i : Nat) : Option String :=
  (outputs interval initState t).getD i none

theorem monitorStep_prev (interval : Int) (s : MonitorState) (now : Int) (v : HealthVerdict) :
    (monitorStep interval s now v).2.previousIsHealthy = some v.isHealthy := by
  unfold monitorStep
  split
  · rfl
  · split <;> rfl

theorem monitorStep_first (interval : Int) (s : MonitorState) (now : Int) (v : HealthVerdict)
    (hprev : s.previousIsHealthy = none) :
    monitorStep interval s now v = (some v.message, ⟨some v.isHealthy, now⟩) := by
  unfold monitorStep
  rw [if_pos (Or.inl hprev)]

theorem monitorStep_transition (interval : Int) (s : MonitorState) (now : Int) (v : HealthVerdict)
    (b : Bool) (hprev : s.previousIsHealthy = some b) (hne : b ≠ v.isHealthy) :
    monitorStep interval s now v = (some v.message, ⟨some v.isHealthy, now⟩) := by
  unfold monitorStep
  rw [if_pos (Or.inr (by rw [hprev]; simp; exact fun h => hne h.symm))]

theorem monitorStep_steady (interval : Int) (s : MonitorState) (now : Int) (v : HealthVerdict)
    (hprev : s.previousIsHealthy = some v.isHealthy)
    (hrem : ¬(v.isHealthy = false ∧ interval ≤ now - s.lastReminderTime)) :
    monitorStep interval s now v = (none, ⟨some v.isHealthy, s.lastReminderTime⟩) := by
  unfold monitorStep
  rw [if_neg (by rw [hprev]; simp), if_neg hrem]

theorem monitorStep_reminder (interval : Int) (s : MonitorState) (now : Int) (v : HealthVerdict)
    (hprev : s.previousIsHealthy = some v.isHealthy)
    (hunh : v.isHealthy = false) (hel : interval ≤ now - s.lastReminderTime) :
    monitorStep interval s now v = (some ("Reminder: " ++ v.message), ⟨some v.isHealthy, now⟩) := by
  unfold monitorStep
  rw [if_neg (by rw [hprev]; simp), if_pos ⟨hunh, hel⟩]

theorem outputs_getD (interval : Int) (s : MonitorState) (t : List (Int × HealthVerdict))
    (i : Nat) (h : i < t.length) :
    (outputs interval s t).getD i none =
      (monitorStep interval (stateAfter interval s (t.take i))
        (t.getD i defaultEntry).1 (t.getD i defaultEntry).2).1 := by
  induction t generalizing s i with
  | nil => simp at h
  | cons e rest ih =>
      cases i with
      | zero => simp [outputs, stateAfter]
      | succ j =>
          simp only [outputs, List.getD_cons_succ, List.take_succ_cons, stateAfter]
          exact ih (monitorStep interval s e.1 e.2).2 j (by simpa using h)

theorem stateAfter_take_succ (interval : Int) (s : MonitorState) (t : List (Int × HealthVerdict))
    (i : Nat) (h : i < t.length) :
    stateAfter interval s (t.take (i + 1)) =
      (monitorStep interval (stateAfter interval s (t.take i))
        (t.getD i defaultEntry).1 (t.getD i defaultEntry).2).2 := by
  induction t generalizing s i with
  | nil => simp at h
  | cons e rest ih =>
      cases i with
      | zero => simp [stateAfter]
      | succ j =>
          simp only [List.take_succ_cons, List.getD_cons_succ, stateAfter]
          exact ih (monitorStep interval s e.1 e.2).2 j (by simpa using h)

theorem stateAfter_take_prev (interval : Int) (s : MonitorState) (t : List (Int × HealthVerdict))
    (i : Nat) (h : i < t.length) :
    (stateAfter interval s (t.take (i + 1))).previousIsHealthy =
      some ((t.getD i defaultEntry).2.isHealthy) := by
  rw [stateAfter_take_succ interval s t i h]
  exact monitorStep_prev ..

/-- C1: over any sequence of `(current_time, verdict)` observations processed
by the server monitor loop from the initial state, a notification is sent at
index 0 and at every index where `isHealthy` differs from the previous index,
carrying the current status text and resetting `last_reminder_time` to the
cycle time; at every other index where the reminder condition does not hold,
no notification is sent. -/
theorem C1_edge_notifications (interval : Int) (t : List (Int × HealthVerdict)) :
    (∀ _ : 0 < t.length,
        outAt interval t 0 = some ((t.getD 0 defaultEntry).2.message) ∧
        (stateAfter interval initState (t.take 1)).lastReminderTime =
          (t.getD 0 defaultEntry).1) ∧
    (∀ i : Nat, i + 1 < t.length →
        (t.getD (i + 1) defaultEntry).2.isHealthy ≠ (t.getD i defaultEntry).2.isHealthy →
        outAt interval t (i + 1) = some ((t.getD (i + 1) defaultEntry).2.message) ∧
        (stateAfter interval initState (t.take (i + 2))).lastReminderTime =
          (t.getD (i + 1) defaultEntry).1) ∧
    (∀ i : Nat, i + 1 < t.length →
        (t.getD (i + 1) defaultEntry).2.isHealthy = (t.getD i defaultEntry).2.isHealthy →
        ¬((t.getD (i + 1) defaultEntry).2.isHealthy = false ∧
            interval ≤ (t.getD (i + 1) defaultEntry).1 -
              (stateAfter interval initState (t.take (i + 1))).lastReminderTime) →
        outAt interval t (i + 1) = none) := by
  refine ⟨fun h0 => ?_, fun i h hne => ?_, fun i h heq hrem => ?_⟩
  · constructor
    · rw [outAt, outputs_getD interval initState t 0 h0]
      simp only [List.take_zero, stateAfter]
      rw [monitorStep_first _ _ _ _ rfl]
    · rw [show (1 : Nat) = 0 + 1 from rfl, stateAfter_take_succ interval initState t 0 h0]
      simp only [List.take_zero, stateAfter]
      rw [monitorStep_first _ _ _ _ rfl]
  · have hprev := stateAfter_take_prev interval initState t i (Nat.lt_of_succ_lt h)
    constructor
    · rw [outAt, outputs_getD interval initState t (i + 1) h]
      rw [monitorStep_transition _ _ _ _ _ hprev (Ne.symm hne)]
    · rw [show i + 2 = (i + 1) + 1 from rfl,
        stateAfter_take_succ interval initState t (i + 1) h]
      rw [monitorStep_transition _ _ _ _ _ hprev (Ne.symm hne)]
  · have hprev := stateAfter_take_prev interval initState t i (Nat.lt_of_succ_lt h)
    rw [outAt, outputs_getD interval initState t (i + 1) h]
    rw [monitorStep_steady _ _ _ _ (by rw [hprev, heq]) hrem]

theorem C1_edge_notifications_witness :
    outAt 3600 [(100, ⟨true, "ok"⟩), (160, ⟨false, "down"⟩)] 1 = some "down" ∧
    (stateAfter 3600 initState
        ([(100, ⟨true, "ok"⟩), (160, ⟨false, "down"⟩)].take 2)).lastReminderTime = 160 :=
  (C1_edge_notifications 3600 [(100, ⟨true, "ok"⟩), (160, ⟨false, "down"⟩)]).2.1 0
    (by decide) (by decide)

/-- C2: while the verdict stays unhealthy with no transition, a reminder
fires exactly when `current_time - last_reminder_time >= hourly_reminder`
(the boundary case of equality fires), each reminder resets
`last_reminder_time` to the cycle time, a non-firing cycle leaves the state
unchanged, and right after a reminder no further notification is sent while
less than a full interval has elapsed. -/
theorem C2_reminder_policy (interval : Int) (s : MonitorState) (now : Int) (v : HealthVerdict)
    (hprev : s.previousIsHealthy = some false) (hv : v.isHealthy = false) :
    ((monitorStep interval s now v).1 = some ("Reminder: " ++ v.message) ↔
        interval ≤ now - s.lastReminderTime) ∧
    (interval ≤ now - s.lastReminderTime →
        (monitorStep interval s now v).2.lastReminderTime = now) ∧
    (¬ interval ≤ now - s.lastReminderTime →
        (monitorStep interval s now v).1 = none ∧
        (monitorStep interval s now v).2.lastReminderTime = s.lastReminderTime) ∧
    (interval ≤ now - s.lastReminderTime →
        ∀ now2 : Int, ∀ v2 : HealthVerdict, v2.isHealthy = false → now2 - now < interval →
          (monitorStep interval (monitorStep interval s now v).2 now2 v2).1 = none) := by
  have hpv : s.previousIsHealthy = some v.isHealthy := by rw [hprev, hv]
  by_cases hel : interval ≤ now - s.lastReminderTime
  · rw [monitorStep_reminder interval s now v hpv hv hel]
    refine ⟨⟨fun _ => hel, fun _ => rfl⟩, fun _ => rfl, fun hcon => absurd hel hcon,
      fun _ now2 v2 hv2 hlt => ?_⟩
    rw [monitorStep_steady _ _ _ _ (show some v.isHealthy = some v2.isHealthy by rw [hv, hv2])
      (fun hc => absurd hc.2 (not_le.mpr hlt))]
  · rw [monitorStep_steady interval s now v hpv (fun hc => hel hc.2)]
    exact ⟨iff_of_false (by simp) hel, fun hcon => absurd hcon hel,
      fun _ => ⟨rfl, rfl⟩, fun hcon => absurd hcon hel⟩

theorem C2_reminder_policy_witness :
    (monitorStep 3600 ⟨some false, 1000⟩ 4600 ⟨false, "down"⟩).1 =
      some ("Reminder: " ++ "down") ∧
    (monitorStep 3600 ⟨some false, 1000⟩ 4600 ⟨false, "down"⟩).2.lastReminderTime = 4600 :=
  ⟨(C2_reminder_policy 3600 ⟨some false, 1000⟩ 4600 ⟨false, "down"⟩ rfl rfl).1.mpr (by decide),
   (C2_reminder_policy 3600 ⟨some false, 1000⟩ 4600 ⟨false, "down"⟩ rfl rfl).2.1 (by decide)⟩

/-- What one iteration of the `while True` loop in `server.py` observes:
a normal cycle yielding a verdict at a given time, an unexpected exception
raised inside the cycle (the `except Exception` branch), or the shutdown
signal (`KeyboardInterrupt`). -/
inductive CycleEvent where
  | verdict (now : Int) (v : HealthVerdict)
  | exn (msg : String)
  | shutdown
deriving DecidableEq

/-- Outcome of one loop iteration: notifications sent, seconds slept
(none when the loop breaks), loop state afterwards, and whether the loop
continues. -/
structure CycleResult where
  sent : List String
  sleep : Option Nat
  state : MonitorState
  keepGoing : Bool
deriving DecidableEq

/-- Outcome of running the loop over a list of cycle events. -/
structure RunResult where
  sent : List String
  state : MonitorState
  keepGoing : Bool
deriving DecidableEq

/-- `config` entry `normal_sleep` of `server.py` (check every minute). -/
def normal_sleep : Nat := 60

/-- `config` entry `fail_sleep` of `server.py` (check every minute even if
failed). -/
def fail_sleep : Nat := 60

/-- One iteration of the `while True` loop of `server.py` lines 158-201:
a verdict cycle runs the notification decision and sleeps `normal_sleep` or
`fail_sleep`; an unexpected exception is caught by `except Exception`,
logged, followed by `time.sleep(fail_sleep)` with the state untouched;
`KeyboardInterrupt` sends the final stopped notification and breaks. -/
def loopCycle (interval : Int) (ns fs : Nat) (s : MonitorState) : CycleEvent → CycleResult
  | .verdict now v =>
      ⟨(monitorStep interval s now v).1.toList,
        some (if v.isHealthy then ns else fs), (monitorStep interval s now v).2, true⟩
  | .exn _ => ⟨[], some fs, s, true⟩
  | .shutdown => ⟨["TWS API monitoring stopped"], none, s, false⟩

/-- The loop run over a finite list of cycle events: iterates until the
event list is exhausted (still running) or an iteration breaks. -/
def runLoop (interval : Int) (ns fs : Nat) (s : MonitorState) : List CycleEvent → RunResult
  | [] => ⟨[], s, true⟩
  | e :: rest =>
      if (loopCycle interval ns fs s e).keepGoing then
        ⟨(loopCycle interval ns fs s e).sent ++
            (runLoop interval ns fs (loopCycle interval ns fs s e).state rest).sent,
          (runLoop interval ns fs (loopCycle interval ns fs s e).state rest).state,
          (runLoop interval ns fs (loopCycle interval ns fs s e).state rest).keepGoing⟩
      else ⟨(loopCycle interval ns fs s e).sent, (loopCycle interval ns fs s e).state, false⟩

theorem runLoop_exn (interval : Int) (ns fs : Nat) (s : MonitorState) (m : String)
    (es : List CycleEvent) :
    runLoop interval ns fs s (.exn m :: es) = runLoop interval ns fs s es := by
  simp [runLoop, loopCycle]

theorem runLoop_stops_iff (interval : Int) (ns fs : Nat) (s : MonitorState)
    (es : List CycleEvent) :
    (runLoop interval ns fs s es).keepGoing = false ↔ CycleEvent.shutdown ∈ es := by
  induction es generalizing s with
  | nil => simp [runLoop]
  | cons e rest ih =>
      cases e with
      | verdict now v => simp [runLoop, loopCycle, ih]
      | exn m => simp [runLoop, loopCycle, ih]
      | shutdown => simp [runLoop, loopCycle]

theorem runLoop_shutdown_split (interval : Int) (ns fs : Nat) (s : MonitorState)
    (pre rest : List CycleEvent) (hpre : CycleEvent.shutdown ∉ pre) :
    runLoop interval ns fs s (pre ++ CycleEvent.shutdown :: rest) =
      ⟨(runLoop interval ns fs s pre).sent ++ ["TWS API monitoring stopped"],
        (runLoop interval ns fs s pre).state, false⟩ := by
  induction pre generalizing s with
  | nil => simp [runLoop, loopCycle]
  | cons e pre ih =>
      have he : e ≠ CycleEvent.shutdown := fun h => hpre (h ▸ List.mem_cons_self e pre)
      have hpre2 : CycleEvent.shutdown ∉ pre := fun h => hpre (List.mem_cons_of_mem e h)
      cases e with
      | verdict now v => simp [runLoop, loopCycle, ih _ hpre2]
      | exn m => simp [runLoop, loopCycle, ih _ hpre2]
      | shutdown => exact absurd rfl he

/-- C3: an unexpected exception inside one cycle is caught at the loop
boundary with no notification, a `fail_sleep` sleep (equal to the normal
`normal_sleep` of the server config) and an untouched `MonitorState`,
and the following cycles run exactly as if the failed cycle had not
happened; the loop stops exactly when the shutdown signal occurs, and on
the first shutdown signal it sends the final stopped notification and
exits, processing nothing further. -/
theorem C3_loop_isolation (interval : Int) (ns fs : Nat) (s : MonitorState) (m : String)
    (es pre rest : List CycleEvent) :
    (loopCycle interval ns fs s (.exn m) = ⟨[], some fs, s, true⟩) ∧
    ((loopCycle interval normal_sleep fail_sleep s (.exn m)).sleep = some normal_sleep) ∧
    (runLoop interval ns fs s (.exn m :: es) = runLoop interval ns fs s es) ∧
    ((runLoop interval ns fs s es).keepGoing = false ↔ CycleEvent.shutdown ∈ es) ∧
    (CycleEvent.shutdown ∉ pre →
        runLoop interval ns fs s (pre ++ CycleEvent.shutdown :: rest) =
          ⟨(runLoop interval ns fs s pre).sent ++ ["TWS API monitoring stopped"],
            (runLoop interval ns fs s pre).state, false⟩) :=
  ⟨rfl, rfl, runLoop_exn interval ns fs s m es, runLoop_stops_iff interval ns fs s es,
    runLoop_shutdown_split interval ns fs s pre rest⟩

theorem C3_loop_isolation_witness :
    runLoop 3600 60 60 initState
        ([CycleEvent.exn "boom"] ++ CycleEvent.shutdown :: [CycleEvent.exn "late"]) =
      ⟨(runLoop 3600 60 60 initState [CycleEvent.exn "boom"]).sent ++
          ["TWS API monitoring stopped"],
        (runLoop 3600 60 60 initState [CycleEvent.exn "boom"]).state, false⟩ :=
  (C3_loop_isolation 3600 60 60 initState "boom" [] [CycleEvent.exn "boom"]
    [CycleEvent.exn "late"]).2.2.2.2 (by decide)

/-- A Python exception reaching the outer `try` of the server health check:
either a `socket.error` or any other `Exception`. -/
inductive PyExn where
  | socketError (msg : String)
  | otherError (msg : String)
deriving DecidableEq

/-- Observable behaviour of the transport underneath
`server.py check_tws_api_health`: whether `app.connect`/thread start raises,
whether `connectAck` arrives within the timeout, whether `reqCurrentTime`
raises, whether the `currentTime` callback delivers a server time within the
timeout, and whether the client thread recorded an exception in
`exception_queue`. -/
structure TransportBehaviour where
  connectException : Option PyExn
  connectedWithinTimeout : Bool
  reqTimeException : Option PyExn
  threadException : Option String
  serverTimeWithinTimeout : Bool
deriving DecidableEq

namespace Server

/-- The body of the outer `try` in `server.py check_tws_api_health`
lines 61-95, as a computation that may raise: connect (may raise), poll the
`connected` flag until timeout, request the server time (may raise), poll
`server_time` until timeout, drain `exception_queue`, then decide. The
`return` statements of the source become `.ok` results. -/
def probe_body (b : TransportBehaviour) : Except PyExn HealthVerdict :=
  match b.connectException with
  | some e => .error e
  | none =>
      if b.connectedWithinTimeout = false then
        .ok ⟨false, "Failed to establish connection within timeout period."⟩
      else
        match b.reqTimeException with
        | some e => .error e
        | none =>
            match b.threadException with
            | some m => .ok ⟨false, m⟩
            | none =>
                if b.serverTimeWithinTimeout = false then
                  .ok ⟨false, "Failed to receive server time response."⟩
                else
                  .ok ⟨true, "TWS API is healthy and responsive."⟩

/-- `server.py check_tws_api_health` lines 52-107: the body wrapped in the
`except socket.error` and `except Exception` handlers, so every behaviour of
the transport resolves to a `HealthVerdict`. The `host`, `port`, `timeout`
and `client_id` arguments only parameterise the transport. -/
def check_tws_api_health (host : String) (port timeout client_id : Nat)
    (b : TransportBehaviour) : HealthVerdict :=
  match probe_body b with
  | .ok v => v
  | .error (.socketError m) => ⟨false, "Connection failed: " ++ m⟩
  | .error (.otherError m) => ⟨false, "Unexpected error: " ++ m⟩

end Server

/-- Outcome of `await asyncio.wait_for(ib.connectAsync(...))` in
`monitoring.py check_tws_api_health`. -/
inductive ConnectOutcome where
  | completed
  | timedOut
  | raised (msg : String)
deriving DecidableEq

/-- Observable behaviour of the transport underneath
`monitoring.py check_tws_api_health`: the connect await outcome, the
`ib.isConnected()` flag afterwards, and the exception (if any) raised by
the awaited `reqCurrentTimeAsync` round trip, caught by the inner
`except Exception`. -/
structure LocalBehaviour where
  connectOutcome : ConnectOutcome
  isConnectedAfter : Bool
  timeError : Option String
deriving DecidableEq

namespace Monitoring

/-- The body of the outer `try` in `monitoring.py check_tws_api_health`
lines 87-95: connect (may time out or raise), check `isConnected`, run the
time round trip whose own failures the inner `try` turns into a negative
verdict, otherwise report healthy. -/
def probe_body (lb : LocalBehaviour) : Except PyExn HealthVerdict :=
  match lb.connectOutcome with
  | .timedOut => .error (.socketError "")
  | .raised m => .error (.otherError m)
  | .completed =>
      if lb.isConnectedAfter = false then
        .ok ⟨false, "Failed to establish connection within timeout period."⟩
      else
        match lb.timeError with
        | some m => .ok ⟨false, "Failed to receive server time response: " ++ m⟩
        | none => .ok ⟨true, "TWS API is healthy and responsive."⟩

/-- `monitoring.py check_tws_api_health` lines 83-103: the body wrapped in
the `except asyncio.TimeoutError` and `except Exception` handlers (the
timeout is modelled by the `socketError` constructor of `PyExn`), so every
behaviour resolves to a `HealthVerdict`. -/
def check_tws_api_health (host : String) (port client_id timeout : Nat)
    (lb : LocalBehaviour) : HealthVerdict :=
  match probe_body lb with
  | .ok v => v
  | .error (.socketError _) => ⟨false, "Connection or server time request timed out."⟩
  | .error (.otherError m) => ⟨false, "Unexpected error: " ++ m⟩

end Monitoring

/-- C4: for every input and every transport behaviour both probe variants
return a `HealthVerdict` (the handlers leave no unhandled exception), the
verdict is positive exactly when the connection was established and the
time round trip succeeded with no recorded exception, a connection failure
within the timeout yields the negative connection verdict, and a missing
time response yields the negative round-trip verdict. -/
theorem C4_probe_total (host : String) (port timeout client_id : Nat)
    (b : TransportBehaviour) (lb : LocalBehaviour) :
    ((Server.check_tws_api_health host port timeout client_id b).isHealthy = true ↔
        b.connectException = none ∧ b.connectedWithinTimeout = true ∧
        b.reqTimeException = none ∧ b.threadException = none ∧
        b.serverTimeWithinTimeout = true) ∧
    (b.connectException = none → b.connectedWithinTimeout = false →
        Server.check_tws_api_health host port timeout client_id b =
          ⟨false, "Failed to establish connection within timeout period."⟩) ∧
    (b.connectException = none → b.connectedWithinTimeout = true →
        b.reqTimeException = none → b.threadException = none →
        b.serverTimeWithinTimeout = false →
        Server.check_tws_api_health host port timeout client_id b =
          ⟨false, "Failed to receive server time response."⟩) ∧
    ((Monitoring.check_tws_api_health host port client_id timeout lb).isHealthy = true ↔
        lb.connectOutcome = .completed ∧ lb.isConnectedAfter = true ∧
        lb.timeError = none) ∧
    (lb.connectOutcome = .timedOut →
        Monitoring.check_tws_api_health host port client_id timeout lb =
          ⟨false, "Connection or server time request timed out."⟩) := by
  refine ⟨?_, ?_, ?_, ?_, ?_⟩
  · unfold Server.check_tws_api_health Server.probe_body
    rcases b with ⟨ce, cw, rte, te, st⟩
    rcases ce with _ | ⟨e⟩
    · cases cw <;> rcases rte with _ | ⟨e2⟩ <;> rcases te with _ | ⟨m⟩ <;> cases st <;>
        simp <;> first
        | rfl
        | (cases e2 <;> simp)
    · cases e <;> simp
  · intro h1 h2
    unfold Server.check_tws_api_health Server.probe_body
    rw [h1, h2]
    rfl
  · intro h1 h2 h3 h4 h5
    unfold Server.check_tws_api_health Server.probe_body
    rw [h1, h2, h3, h4, h5]
    rfl
  · unfold Monitoring.check_tws_api_health Monitoring.probe_body
    rcases lb with ⟨co, ic, te⟩
    cases co <;> cases ic <;> rcases te with _ | ⟨m⟩ <;> simp
  · intro h1
    unfold Monitoring.check_tws_api_health Monitoring.probe_body
    rw [h1]

theorem C4_probe_total_witness :
    Server.check_tws_api_health "localhost" 9999 5 10 ⟨none, false, none, none, false⟩ =
      ⟨false, "Failed to establish connection within timeout period."⟩ ∧
    Monitoring.check_tws_api_health "localhost" 9999 1 5 ⟨.timedOut, false, none⟩ =
      ⟨false, "Connection or server time request timed out."⟩ :=
  ⟨(C4_probe_total "localhost" 9999 5 10 ⟨none, false, none, none, false⟩
      ⟨.timedOut, false, none⟩).2.1 rfl rfl,
    (C4_probe_total "localhost" 9999 5 10 ⟨none, false, none, none, false⟩
      ⟨.timedOut, false, none⟩).2.2.2.2 rfl⟩

/-- C10: in the thread-per-connection prober, a recorded client-thread
exception makes the probe return an unhealthy verdict carrying exactly that
message even when the server time response has already been received: the
`exception_queue` check precedes the success return. -/
theorem C10_thread_exception_priority (host : String) (port timeout client_id : Nat)
    (e : String) :
    Server.check_tws_api_health host port timeout client_id
        ⟨none, true, none, some e, true⟩ = ⟨false, e⟩ := rfl

/-- A `datetime.time` value compared by Python: hour, minute, second
(lexicographic order; the microsecond component behaves like a further
lexicographic position and is omitted, the configured bounds always having
second and microsecond zero). -/
structure TimeOfDay where
  hour : Nat
  minute : Nat
  second : Nat
deriving DecidableEq

/-- Python comparison `a <= b` on `datetime.time`: lexicographic on
(hour, minute, second). -/
def timeLe (a b : TimeOfDay) : Bool :=
  decide (a.hour < b.hour) ||
    (decide (a.hour = b.hour) &&
      (decide (a.minute < b.minute) ||
        (decide (a.minute = b.minute) && decide (a.second ≤ b.second))))

theorem timeLe_iff (a b : TimeOfDay) :
    timeLe a b = true ↔
      (a.hour < b.hour ∨ (a.hour = b.hour ∧
        (a.minute < b.minute ∨ (a.minute = b.minute ∧ a.second ≤ b.second)))) := by
  simp [timeLe]

theorem timeLe_refl (a : TimeOfDay) : timeLe a a = true := by
  simp [timeLe]

theorem timeLe_trans (a b c : TimeOfDay) (hab : timeLe a b = true)
    (hbc : timeLe b c = true) : timeLe a c = true := by
  rw [timeLe_iff] at *
  omega

/-- Python `str.split` with a one-character separator, on the character
list of the string. -/
def splitCharList (sep : Char) : List Char → List (List Char)
  | [] => [[]]
  | c :: rest =>
      if c = sep then [] :: splitCharList sep rest
      else
        match splitCharList sep rest with
        | [] => [[c]]
        | g :: gs => (c :: g) :: gs

/-- Python `int` on a decimal digit string given as characters (malformed
strings raise `ValueError` in Python and never appear in the theorems
below). -/
def digitsToNat (cs : List Char) : Nat :=
  cs.foldl (fun acc c => acc * 10 + (c.toNat - 48)) 0

/-- `map(int, s.split(":"))` for a `"HH:MM"` string, unpacked into the hour
and minute (any other number of fields raises in Python and never appears
in the theorems below). -/
def parseHM (s : String) : Nat × Nat :=
  match (splitCharList ':' s.toList).map digitsToNat with
  | [h, m] => (h, m)
  | _ => (0, 0)

/-- What `datetime.now(ZoneInfo(tz))` exposes to the pause gate for a given
zone name: the weekday (`Monday = 0 .. Sunday = 6`) and the time of day. -/
structure LocalNow where
  weekday : Nat
  timeOfDay : TimeOfDay

/-- `monitoring.py is_weekend` lines 37-42: `now.weekday() >= 5`. -/
def is_weekend (nowIn : String → LocalNow) (timezone_str : String) : Bool :=
  decide (5 ≤ (nowIn timezone_str).weekday)

/-- `monitoring.py is_in_maintenance_window` lines 45-57: parse the bounds,
build `time(h, m)` values and test `start <= current <= end` literally. -/
def is_in_maintenance_window (nowIn : String → LocalNow)
    (timezone_str start_time end_time : String) : Bool :=
  let current := (nowIn timezone_str).timeOfDay
  let s := parseHM start_time
  let e := parseHM end_time
  timeLe ⟨s.1, s.2, 0⟩ current && timeLe current ⟨e.1, e.2, 0⟩

/-- A value fetched by `dict.get(key, {})` and then tested for truthiness:
the key may be absent, hold an empty dict (both falsy) or hold a non-empty
dict. -/
inductive Entry (α : Type) where
  | absent
  | emptyDict
  | present (val : α)
deriving DecidableEq

/-- The `weekends` pause-window dict; `timezone` may be missing, in which
case `get` supplies `"America/New_York"`. -/
structure WeekendConfig where
  timezone : Option String
deriving DecidableEq

/-- The `daily_maintenance` pause-window dict; missing keys default to
`"America/Los_Angeles"`, `"23:45"` and `"23:55"`. -/
structure MaintenanceConfig where
  timezone : Option String
  start_time : Option String
  end_time : Option String
deriving DecidableEq

/-- The `pause_windows` section of the local config. -/
structure PauseWindowsConfig where
  weekends : Entry WeekendConfig
  daily_maintenance : Entry MaintenanceConfig

/-- The weekend branch of `is_paused` (lines 65-69): skipped when the entry
is absent or empty, otherwise pauses when it is the weekend in the entry
timezone. -/
def weekendCheck (nowIn : String → LocalNow) : Entry WeekendConfig → Option String
  | .present wc =>
      let tz := wc.timezone.getD "America/New_York"
      if is_weekend nowIn tz then some ("Weekend in " ++ tz) else none
  | _ => none

/-- The daily-maintenance branch of `is_paused` (lines 72-78): skipped when
the entry is absent or empty, otherwise pauses inside the window. -/
def maintenanceCheck (nowIn : String → LocalNow) : Entry MaintenanceConfig → Option String
  | .present mc =>
      let tz := mc.timezone.getD "America/Los_Angeles"
      let st := mc.start_time.getD "23:45"
      let et := mc.end_time.getD "23:55"
      if is_in_maintenance_window nowIn tz st et then
        some ("Daily maintenance window (" ++ st ++ "-" ++ et ++ " " ++ tz ++ ")")
      else none
  | _ => none

/-- `monitoring.py is_paused` lines 60-80: fetch `pause_windows` (defaulting
to an empty dict), try the weekend window first and return on a match, then
the maintenance window, else `(False, "")`. -/
def is_paused (nowIn : String → LocalNow) (pause_windows : Entry PauseWindowsConfig) :
    Bool × String :=
  let pw := match pause_windows with
    | .present p => p
    | _ => ⟨.absent, .absent⟩
  match weekendCheck nowIn pw.weekends with
  | some reason => (true, reason)
  | none =>
      match maintenanceCheck nowIn pw.daily_maintenance with
      | some reason => (true, reason)
      | none => (false, "")

/-- C5: the maintenance window matches exactly the instants whose time of
day satisfies the literal lexicographic comparison
`start <= current <= end` with both bounds inclusive: the exact start and
end seconds are inside, and when `start > end` the very same comparison
makes the window empty rather than wrapping past midnight. -/
theorem C5_maintenance_window (nowIn : String → LocalNow) (tz st et : String) :
    (is_in_maintenance_window nowIn tz st et = true ↔
        (timeLe ⟨(parseHM st).1, (parseHM st).2, 0⟩ (nowIn tz).timeOfDay = true ∧
          timeLe (nowIn tz).timeOfDay ⟨(parseHM et).1, (parseHM et).2, 0⟩ = true)) ∧
    ((nowIn tz).timeOfDay = ⟨(parseHM st).1, (parseHM st).2, 0⟩ →
        timeLe ⟨(parseHM st).1, (parseHM st).2, 0⟩ ⟨(parseHM et).1, (parseHM et).2, 0⟩ = true →
        is_in_maintenance_window nowIn tz st et = true) ∧
    ((nowIn tz).timeOfDay = ⟨(parseHM et).1, (parseHM et).2, 0⟩ →
        timeLe ⟨(parseHM st).1, (parseHM st).2, 0⟩ ⟨(parseHM et).1, (parseHM et).2, 0⟩ = true →
        is_in_maintenance_window nowIn tz st et = true) ∧
    (timeLe ⟨(parseHM st).1, (parseHM st).2, 0⟩ ⟨(parseHM et).1, (parseHM et).2, 0⟩ = false →
        is_in_maintenance_window nowIn tz st et = false) := by
  have hmain : is_in_maintenance_window nowIn tz st et = true ↔
      (timeLe ⟨(parseHM st).1, (parseHM st).2, 0⟩ (nowIn tz).timeOfDay = true ∧
        timeLe (nowIn tz).timeOfDay ⟨(parseHM et).1, (parseHM et).2, 0⟩ = true) := by
    simp [is_in_maintenance_window]
  refine ⟨hmain, fun hc hse => ?_, fun hc hse => ?_, fun hse => ?_⟩
  · exact hmain.mpr ⟨by rw [hc]; exact timeLe_refl _, by rw [hc]; exact hse⟩
  · exact hmain.mpr ⟨by rw [hc]; exact hse, by rw [hc]; exact timeLe_refl _⟩
  · cases hval : is_in_maintenance_window nowIn tz st et with
    | false => rfl
    | true =>
        obtain ⟨h1, h2⟩ := hmain.mp hval
        rw [timeLe_trans _ _ _ h1 h2] at hse
        exact hse

theorem C5_maintenance_window_witness :
    is_in_maintenance_window (fun _ => ⟨2, ⟨23, 55, 0⟩⟩) "America/Los_Angeles"
      "23:45" "23:55" = true ∧
    is_in_maintenance_window (fun _ => ⟨2, ⟨12, 0, 0⟩⟩) "America/Los_Angeles"
      "23:45" "23:40" = false :=
  ⟨(C5_maintenance_window (fun _ => ⟨2, ⟨23, 55, 0⟩⟩) "America/Los_Angeles"
      "23:45" "23:55").2.2.1 (by decide) (by decide),
    (C5_maintenance_window (fun _ => ⟨2, ⟨12, 0, 0⟩⟩) "America/Los_Angeles"
      "23:45" "23:40").2.2.2 (by decide)⟩

/-- C6: the pause gate evaluates the weekend window first and returns its
reason on a match without consulting the maintenance entry (the result is
the same for any two maintenance entries), returns the maintenance reason
when the weekend window does not match but the maintenance window does, and
returns `(false, "")` when no window matches. -/
theorem C6_pause_order (nowIn : String → LocalNow) (pw : PauseWindowsConfig)
    (wc : WeekendConfig) (m1 m2 : Entry MaintenanceConfig) (mc : MaintenanceConfig) :
    (pw.weekends = .present wc →
        is_weekend nowIn (wc.timezone.getD "America/New_York") = true →
        is_paused nowIn (.present pw) =
          (true, "Weekend in " ++ wc.timezone.getD "America/New_York")) ∧
    (is_weekend nowIn (wc.timezone.getD "America/New_York") = true →
        is_paused nowIn (.present ⟨.present wc, m1⟩) =
          is_paused nowIn (.present ⟨.present wc, m2⟩)) ∧
    ((∀ wc2 : WeekendConfig, pw.weekends = .present wc2 →
          is_weekend nowIn (wc2.timezone.getD "America/New_York") = false) →
        pw.daily_maintenance = .present mc →
        is_in_maintenance_window nowIn (mc.timezone.getD "America/Los_Angeles")
            (mc.start_time.getD "23:45") (mc.end_time.getD "23:55") = true →
        is_paused nowIn (.present pw) =
          (true, "Daily maintenance window (" ++ mc.start_time.getD "23:45" ++ "-" ++
            mc.end_time.getD "23:55" ++ " " ++ mc.timezone.getD "America/Los_Angeles" ++ ")")) ∧
    ((∀ wc2 : WeekendConfig, pw.weekends = .present wc2 →
          is_weekend nowIn (wc2.timezone.getD "America/New_York") = false) →
        (∀ mc2 : MaintenanceConfig, pw.daily_maintenance = .present mc2 →
            is_in_maintenance_window nowIn (mc2.timezone.getD "America/Los_Angeles")
              (mc2.start_time.getD "23:45") (mc2.end_time.getD "23:55") = false) →
        is_paused nowIn (.present pw) = (false, "")) := by
  obtain ⟨we, dm⟩ := pw
  refine ⟨fun hwe hwk => ?_, fun hwk => ?_, fun hno hdm hin => ?_, fun hno hnom => ?_⟩
  · cases hwe
    simp [is_paused, weekendCheck, hwk]
  · simp [is_paused, weekendCheck, hwk]
  · cases hdm
    cases we with
    | absent => simp [is_paused, weekendCheck, maintenanceCheck, hin]
    | emptyDict => simp [is_paused, weekendCheck, maintenanceCheck, hin]
    | present wc2 =>
        simp [is_paused, weekendCheck, maintenanceCheck, hin, hno wc2 rfl]
  · have hwkc : weekendCheck nowIn we = none := by
      cases we with
      | absent => rfl
      | emptyDict => rfl
      | present wc2 => simp [weekendCheck, hno wc2 rfl]
    have hmc : maintenanceCheck nowIn dm = none := by
      cases dm with
      | absent => rfl
      | emptyDict => rfl
      | present mc2 => simp [maintenanceCheck, hnom mc2 rfl]
    simp [is_paused, hwkc, hmc]

theorem C6_pause_order_witness :
    is_paused (fun _ => ⟨6, ⟨23, 50, 0⟩⟩)
        (.present ⟨.present ⟨some "UTC"⟩, .present ⟨none, none, none⟩⟩) =
      (true, "Weekend in " ++ "UTC") :=
  (C6_pause_order (fun _ => ⟨6, ⟨23, 50, 0⟩⟩)
      ⟨.present ⟨some "UTC"⟩, .present ⟨none, none, none⟩⟩ ⟨some "UTC"⟩
      .absent .absent ⟨none, none, none⟩).1 rfl (by decide)

/-- C9: with the pause-window section absent or empty, or with each window
entry absent or empty, the pause gate returns `(false, "")`: an empty entry
behaves exactly like a missing one and monitoring is never suppressed. -/
theorem C9_default_no_pause (nowIn : String → LocalNow) :
    is_paused nowIn .absent = (false, "") ∧
    is_paused nowIn .emptyDict = (false, "") ∧
    is_paused nowIn (.present ⟨.absent, .absent⟩) = (false, "") ∧
    is_paused nowIn (.present ⟨.emptyDict, .emptyDict⟩) = (false, "") ∧
    is_paused nowIn (.present ⟨.emptyDict, .absent⟩) = (false, "") ∧
    is_paused nowIn (.present ⟨.absent, .emptyDict⟩) = (false, "") :=
  ⟨rfl, rfl, rfl, rfl, rfl, rfl⟩

/-- Result of `subprocess.run`: return code and captured stderr. -/
structure SubprocessResult where
  returncode : Int
  stderr : String
deriving DecidableEq

/-- Behaviour of the `subprocess.run` call inside `stop_tws_process`:
it either raises or completes with a result. -/
inductive StopBehaviour where
  | raises (msg : String)
  | completes (r : SubprocessResult)
deriving DecidableEq

/-- The raw `subprocess.run` call of `stop_tws_process`, before the
`except Exception` handler. -/
def stop_run : StopBehaviour → Except String SubprocessResult
  | .raises m => .error m
  | .completes r => .ok r

/-- `monitoring.py stop_tws_process` lines 106-119: run the kill command,
return `True` on return code 0, `False` on any other code, and `False`
when the call raises (caught by its own `except Exception`); it never
raises to its caller. -/
def stop_tws_process (port : Nat) (b : StopBehaviour) : Bool :=
  match stop_run b with
  | .ok r => decide (r.returncode = 0)
  | .error _ => false

/-- Behaviour of the `subprocess.Popen` call inside `start_tws`. -/
inductive StartBehaviour where
  | raises (msg : String)
  | launches
deriving DecidableEq

/-- `monitoring.py start_tws` lines 122-132: launch the start script,
returning `False` instead of raising when `Popen` fails. -/
def start_tws (b : StartBehaviour) : Bool :=
  match b with
  | .raises _ => false
  | .launches => true

/-- The parts of the local `config.json` used by `restart_tws`:
`wait_after_stop` is optional with default 30. -/
structure LocalConfig where
  name : String
  port : Nat
  wait_after_stop : Option Nat
  bot_token : String
  chat_id : String

/-- The observable steps taken by the remediation sequence, in order. -/
inductive RestartEffect where
  | notify (msg : String)
  | stopAttempt (port : Nat) (ok : Bool)
  | waitSeconds (n : Nat)
  | startAttempt (ok : Bool)
deriving DecidableEq

/-- `monitoring.py restart_tws` lines 135-158: notify, stop the process on
the configured port (best effort), wait `wait_after_stop` seconds, start
the target; the list records the steps in execution order. -/
def restart_tws (cfg : LocalConfig) (sb : StopBehaviour) (tb : StartBehaviour) :
    List RestartEffect :=
  [RestartEffect.notify (cfg.name ++ ": restarting TWS"),
    RestartEffect.stopAttempt cfg.port (stop_tws_process cfg.port sb),
    RestartEffect.waitSeconds (cfg.wait_after_stop.getD 30),
    RestartEffect.startAttempt (start_tws tb)]

/-- C7: the remediation sequence always performs its four steps in order
(notify restarting, stop on the configured port, wait, start), and when the
stop subprocess call raises, the exception is absorbed inside
`stop_tws_process` (which returns `False`) and the sequence still reaches
the wait and the start step. -/
theorem C7_remediation_sequence (cfg : LocalConfig) (sb : StopBehaviour)
    (tb : StartBehaviour) (m : String) :
    (restart_tws cfg sb tb =
        [RestartEffect.notify (cfg.name ++ ": restarting TWS"),
          RestartEffect.stopAttempt cfg.port (stop_tws_process cfg.port sb),
          RestartEffect.waitSeconds (cfg.wait_after_stop.getD 30),
          RestartEffect.startAttempt (start_tws tb)]) ∧
    (stop_tws_process cfg.port (.raises m) = false) ∧
    (restart_tws cfg (.raises m) tb =
        [RestartEffect.notify (cfg.name ++ ": restarting TWS"),
          RestartEffect.stopAttempt cfg.port false,
          RestartEffect.waitSeconds (cfg.wait_after_stop.getD 30),
          RestartEffect.startAttempt (start_tws tb)]) :=
  ⟨rfl, rfl, rfl⟩

/-- The environment variables read by `server.py main`; `None` models a
variable that is unset. -/
structure ServerEnv where
  BOT_TOKEN : Option String
  CHAT_ID : Option String
  HOURLY_REMINDER : Option Nat
  TWS_HOST : Option String
  TWS_PORT : Option Nat
  TWS_CLIENT_ID : Option Nat

/-- The `config` dict literal of `server.py main` lines 124-133. -/
structure ServerConfig where
  telegram_token : String
  chat_id : String
  normal_sleep_cfg : Nat
  fail_sleep_cfg : Nat
  hourly_reminder : Nat
  host : String
  port : Nat
  client_id : Nat
deriving DecidableEq

/-- Building the `config` dict from the environment with the defaults of
`server.py` lines 124-133. -/
def buildConfig (env : ServerEnv) : ServerConfig where
  telegram_token := env.BOT_TOKEN.getD ""
  chat_id := env.CHAT_ID.getD ""
  normal_sleep_cfg := 60
  fail_sleep_cfg := 60
  hourly_reminder := env.HOURLY_REMINDER.getD 3600
  host := env.TWS_HOST.getD "localhost"
  port := env.TWS_PORT.getD 9999
  client_id := env.TWS_CLIENT_ID.getD 10

/-- The `required_vars` dict of `server.py` lines 136-139, in insertion
order. -/
def required_vars : List (String × String) :=
  [("BOT_TOKEN", "telegram_token"), ("CHAT_ID", "chat_id")]

/-- `config[key]` for the credential keys checked by the validation. -/
def configCredential (c : ServerConfig) (key : String) : String :=
  if key = "telegram_token" then c.telegram_token
  else if key = "chat_id" then c.chat_id
  else ""

/-- `[env for env, key in required_vars.items() if not config[key]]`
(`server.py` line 140): the names whose configured value is falsy, i.e.
the empty string. -/
def missing_vars (c : ServerConfig) : List String :=
  (required_vars.filter (fun p => configCredential c p.2 = "")).map (fun p => p.1)

/-- Whether `main` enters the monitor loop or returns during validation. -/
inductive StartupOutcome where
  | refused (missing : List String)
  | started
deriving DecidableEq

/-- `server.py main` lines 122-153 up to entering the loop: build the
config, compute the missing credentials, return without any notification
when some are missing, otherwise send the started notification and
proceed. -/
def main_startup (env : ServerEnv) : StartupOutcome × List String :=
  let c := buildConfig env
  if (missing_vars c).isEmpty then
    (StartupOutcome.started, ["TWS API monitoring started"])
  else (StartupOutcome.refused (missing_vars c), [])

/-- C8: when the token or the destination is unset or empty the daemon
refuses to start, sending nothing and reporting exactly the missing
settings in order; when both are present and non-empty it proceeds and
sends the started notification. -/
theorem C8_credential_validation (env : ServerEnv) :
    ((buildConfig env).telegram_token = "" ∨ (buildConfig env).chat_id = "" →
        main_startup env =
          (StartupOutcome.refused
              ((if (buildConfig env).telegram_token = "" then ["BOT_TOKEN"] else []) ++
                (if (buildConfig env).chat_id = "" then ["CHAT_ID"] else [])), [])) ∧
    ((buildConfig env).telegram_token ≠ "" → (buildConfig env).chat_id ≠ "" →
        main_startup env = (StartupOutcome.started, ["TWS API monitoring started"])) := by
  by_cases ht : (buildConfig env).telegram_token = "" <;>
    by_cases hc : (buildConfig env).chat_id = "" <;>
      constructor <;>
        simp [main_startup, missing_vars, required_vars, configCredential, ht, hc]

theorem C8_credential_validation_witness :
    main_startup ⟨none, some "ops-chat", none, none, none, none⟩ =
      (StartupOutcome.refused ["BOT_TOKEN"], []) ∧
    main_startup ⟨some "tok", some "ops-chat", none, none, none, none⟩ =
      (StartupOutcome.started, ["TWS API monitoring started"]) :=
  ⟨(C8_credential_validation ⟨none, some "ops-chat", none, none, none, none⟩).1 (Or.inl rfl),
    (C8_credential_validation ⟨some "tok", some "ops-chat", none, none, none, none⟩).2
      (by decide) (by decide)⟩
